import Mathlib

/-!
Shallow embedding of the synergy-way user-synchronization service.

The embedded code comes from:
  - `users/infrastructure/api_client.py` (`FakerApiClient.get_credit_cards`),
  - `app/users/infrastructure/repository.py` (`UsersRepository`),
  - `users/service.py` (`UsersService.sync_users`).

Python dictionaries with a fixed schema are embedded as structures whose
fields are `Option`-valued: a missing key is `none`, `d.get(k)` is the field
itself, `d[k]` is `getItem` (raising `KeyError` on `none`), and `d.pop(k, None)`
sets the field to `none`.  Database sessions are embedded as an explicit
`EntityStore` value threaded through the repository operations; SQLAlchemy
autoincrement primary keys are assigned by `flush_changes` from per-table
counters.  External clients are embedded as inputs of `sync_users`: the
directory response as a list of records (a network failure surfaces as the
empty list, exactly as `JsonPlaceholderClient.get_users` produces it), and the
auxiliary client as a function from the requested quantity to the returned
record list.  Every repository and client invocation is recorded in a trace of
`CallEvent`s so that call-count claims can be stated.
-/

namespace SynergyWay

/-! ### JSON values, for the `FakerApiClient` response envelope -/

/-- A JSON value, as produced by `response.json()` in `BaseApiClient._get`. -/
inductive Json where
  | null
  | bool (b : Bool)
  | num (n : Int)
  | str (s : String)
  | arr (elems : List Json)
  | obj (fields : List (String × Json))

/-- Python truthiness of a JSON value, as tested by `not data.get("data")`. -/
def Json.truthy : Json → Bool
  | .null => false
  | .bool b => b
  | .num n => n != 0
  | .str s => s != ""
  | .arr elems => !elems.isEmpty
  | .obj fields => !fields.isEmpty

/-- `dict.get(key)` on a JSON object: the value of the first matching key. -/
def jsonGet (fields : List (String × Json)) (key : String) : Option Json :=
  (fields.find? (fun p => p.1 == key)).map (fun p => p.2)

/-- `FakerApiClient.get_credit_cards(quantity)`.  The HTTP layer is embedded
as the `resp` argument: `none` is a network/HTTP failure (the
`RequestException` branch), `some body` is the deserialized JSON body.
Mirrors the source: `quantity <= 0` short-circuits to `[]`; a failure returns
`[]`; a body that is not a dict, or whose `data` entry is absent or falsy,
returns `[]`; otherwise `data["data"]` is returned verbatim. -/
def FakerApiClient.get_credit_cards (quantity : Int) (resp : Option Json) : Json :=
  if quantity ≤ 0 then .arr []
  else
    match resp with
    | none => .arr []
    | some body =>
      match body with
      | .obj fields =>
        match jsonGet fields "data" with
        | some v => if v.truthy then v else .arr []
        | none => .arr []
      | _ => .arr []

/-! ### Directory / auxiliary record schemas (Python dicts with fixed keys) -/

/-- The nested `geo` sub-dict of a directory address record. -/
structure GeoData where
  lat : Option String
  lng : Option String
deriving DecidableEq

/-- The nested `address` sub-dict of a directory user record. -/
structure AddressData where
  street : Option String
  suite : Option String
  city : Option String
  zipcode : Option String
  geo : Option GeoData
deriving DecidableEq

/-- The nested `company` sub-dict of a directory user record. -/
structure CompanyData where
  name : Option String
  catchPhrase : Option String
  bs : Option String
deriving DecidableEq

/-- One auxiliary (credit-card) record from the FakerAPI batch. -/
structure CardData where
  type : Option String
  number : Option String
  expiration : Option String
  owner : Option String
deriving DecidableEq

/-- One directory user record, as returned by `JsonPlaceholderClient.get_users`.
The `credit_card` field exists only as a `pop` target in `create_user`;
directory records normally carry `none` there. -/
structure UserRecord where
  id : Option Int
  name : Option String
  username : Option String
  email : Option String
  phone : Option String
  website : Option String
  address : Option AddressData
  company : Option CompanyData
  credit_card : Option CardData
deriving DecidableEq

/-- All keys that `create_address` subscripts are present. -/
def GeoData.complete (g : GeoData) : Bool :=
  g.lat.isSome && g.lng.isSome

/-- All address keys that `create_address` subscripts are present. -/
def AddressData.complete (a : AddressData) : Bool :=
  a.street.isSome && a.suite.isSome && a.city.isSome && a.zipcode.isSome &&
    (match a.geo with
     | some g => g.complete
     | none => false)

/-- All keys that `create_company` subscripts are present. -/
def CompanyData.complete (c : CompanyData) : Bool :=
  c.name.isSome && c.catchPhrase.isSome && c.bs.isSome

/-- All keys that `create_credit_card` subscripts are present. -/
def CardData.complete (c : CardData) : Bool :=
  c.type.isSome && c.number.isSome && c.expiration.isSome && c.owner.isSome

/-- A well-formed directory record: it carries an id and complete nested
address and company sub-records, so the create loop cannot raise. -/
def UserRecord.complete (d : UserRecord) : Bool :=
  d.id.isSome &&
    (match d.address with
     | some a => a.complete
     | none => false) &&
    (match d.company with
     | some c => c.complete
     | none => false)

/-! ### ORM entities (`app/users/models.py`) and the session (`EntityStore`) -/

/-- The `addresses` table row.  `id` is `none` until a flush assigns it. -/
structure Address where
  id : Option Nat
  street : String
  suite : String
  city : String
  zipcode : String
  geo_lat : String
  geo_lng : String
deriving DecidableEq

/-- The `companies` table row. -/
structure Company where
  id : Option Nat
  name : String
  catch_phrase : String
  bs : String
deriving DecidableEq

/-- The `credit_cards` table row. -/
structure CreditCard where
  id : Option Nat
  type : String
  number : String
  expiration : String
  owner : String
deriving DecidableEq

/-- The `users` table row.  The primary key is externally assigned (passed in
`user_data`), so it is an `Int` like the directory id; the remaining columns
hold whatever the record dict supplied (`none` for a missing kwarg). -/
structure User where
  id : Option Int
  name : Option String
  username : Option String
  email : Option String
  phone : Option String
  website : Option String
  address_id : Option Nat
  company_id : Option Nat
  credit_card_id : Option Nat
deriving DecidableEq

/-- The SQLAlchemy session as seen by `UsersRepository`: the staged/persisted
rows of the four tables in creation order, plus the autoincrement counters
that `flush_changes` draws fresh primary keys from. -/
structure EntityStore where
  addresses : List Address
  companies : List Company
  creditCards : List CreditCard
  users : List User
  nextAddressId : Nat
  nextCompanyId : Nat
  nextCreditCardId : Nat
  nextUserId : Nat
deriving DecidableEq

/-- Every staged row already has a primary key (no pending autoincrement
assignments), as holds at the start of a pass. -/
def EntityStore.flushed (s : EntityStore) : Bool :=
  s.addresses.all (fun a => a.id.isSome) &&
    s.companies.all (fun c => c.id.isSome) &&
    s.creditCards.all (fun c => c.id.isSome) &&
    s.users.all (fun u => u.id.isSome)

/-! ### Python errors raised by the embedded code -/

/-- Errors of the embedded repository code.  `keyError` is the `KeyError`
raised by a dict subscript on a missing key — the only error the repository
constructors can raise.  `validationError` is modelled from the spec: the
spec names a `ValidationError` for `create_address` on absent required
fields, but no such error class exists anywhere in the source; the
constructor exists only so that statement can be compared with the code. -/
inductive PyError where
  | keyError (key : String)
  | validationError
deriving DecidableEq

/-- `d[key]` on an `Option`-valued dict field: `KeyError` when absent. -/
def getItem {α : Type} (field : Option α) (key : String) : Except PyError α :=
  match field with
  | some v => .ok v
  | none => .error (.keyError key)

/-! ### `UsersRepository` (`app/users/infrastructure/repository.py`) -/

namespace UsersRepository

/-- `UsersRepository.create_address`: builds an `Address` from the nested
address dict (subscripting each key, so a missing key raises `KeyError`)
and stages it in the session. -/
def create_address (store : EntityStore) (data : AddressData) :
    Except PyError (Address × EntityStore) := do
  let street ← getItem data.street "street"
  let suite ← getItem data.suite "suite"
  let city ← getItem data.city "city"
  let zipcode ← getItem data.zipcode "zipcode"
  let geo ← getItem data.geo "geo"
  let lat ← getItem geo.lat "lat"
  let lng ← getItem geo.lng "lng"
  let address : Address :=
    { id := none, street := street, suite := suite, city := city,
      zipcode := zipcode, geo_lat := lat, geo_lng := lng }
  return (address, { store with addresses := store.addresses ++ [address] })

/-- `UsersRepository.create_company`. -/
def create_company (store : EntityStore) (data : CompanyData) :
    Except PyError (Company × EntityStore) := do
  let name ← getItem data.name "name"
  let catch_phrase ← getItem data.catchPhrase "catchPhrase"
  let bs ← getItem data.bs "bs"
  let company : Company :=
    { id := none, name := name, catch_phrase := catch_phrase, bs := bs }
  return (company, { store with companies := store.companies ++ [company] })

/-- `UsersRepository.create_credit_card`. -/
def create_credit_card (store : EntityStore) (data : CardData) :
    Except PyError (CreditCard × EntityStore) := do
  let type ← getItem data.type "type"
  let number ← getItem data.number "number"
  let expiration ← getItem data.expiration "expiration"
  let owner ← getItem data.owner "owner"
  let credit_card : CreditCard :=
    { id := none, type := type, number := number,
      expiration := expiration, owner := owner }
  return (credit_card, { store with creditCards := store.creditCards ++ [credit_card] })

/-- `UsersRepository.create_user`: pops the `address`, `company` and
`credit_card` keys out of the caller-owned record dict (an in-place
mutation, returned here as the second component), then builds the `User`
from the remaining entries plus the three foreign keys and stages it. -/
def create_user (store : EntityStore) (user_data : UserRecord)
    (address_id : Option Nat) (company_id : Option Nat)
    (credit_card_id : Option Nat) : User × UserRecord × EntityStore :=
  let popped : UserRecord :=
    { user_data with address := none, company := none, credit_card := none }
  let user : User :=
    { id := popped.id, name := popped.name, username := popped.username,
      email := popped.email, phone := popped.phone, website := popped.website,
      address_id := address_id, company_id := company_id,
      credit_card_id := credit_card_id }
  (user, popped, { store with users := store.users ++ [user] })

/-- `UsersRepository.get_user_by_id`: first row with a matching primary key.
A `None` argument (record without an id key) matches no row, like the SQL
comparison with NULL. -/
def get_user_by_id (store : EntityStore) (user_id : Option Int) : Option User :=
  match user_id with
  | none => none
  | some i => store.users.find? (fun u => u.id == some i)

/-- `UsersRepository.get_all_users`. -/
def get_all_users (store : EntityStore) : List User :=
  store.users

/-- Assigns fresh ids (from `next`) to the rows still lacking one, in list
order, as a SQLAlchemy flush does for an autoincrement primary key. -/
def flushIds {α : Type} (getId : α → Option Nat) (setId : α → Nat → α) :
    Nat → List α → List α × Nat
  | next, [] => ([], next)
  | next, x :: xs =>
    match getId x with
    | some _ =>
      let r := flushIds getId setId next xs
      (x :: r.1, r.2)
    | none =>
      let r := flushIds getId setId (next + 1) xs
      (setId x next :: r.1, r.2)

/-- `UsersRepository.flush_changes`: `session.flush()`, which assigns the
pending autoincrement primary keys of every staged row. -/
def flush_changes (store : EntityStore) : EntityStore :=
  let ra := flushIds Address.id (fun a i => { a with id := some i })
    store.nextAddressId store.addresses
  let rc := flushIds Company.id (fun c i => { c with id := some i })
    store.nextCompanyId store.companies
  let rcc := flushIds CreditCard.id (fun c i => { c with id := some i })
    store.nextCreditCardId store.creditCards
  let ru := flushIds (fun u => u.id.map Int.toNat)
    (fun u i => { u with id := some (Int.ofNat i) })
    store.nextUserId store.users
  { addresses := ra.1, nextAddressId := ra.2,
    companies := rc.1, nextCompanyId := rc.2,
    creditCards := rcc.1, nextCreditCardId := rcc.2,
    users := ru.1, nextUserId := ru.2 }

end UsersRepository

/-! ### `UsersService.sync_users` (`users/service.py`) -/

/-- One repository or client invocation made during a pass, recorded so that
call-count properties can be stated. -/
inductive CallEvent where
  | getUsers
  | getUserById (user_id : Option Int)
  | getCreditCards (quantity : Nat)
  | createAddress
  | createCompany
  | createCreditCard
  | flushChanges
  | createUser
deriving DecidableEq

/-- The event is one of the five entity-store write operations. -/
def CallEvent.isCreation : CallEvent → Bool
  | .createAddress => true
  | .createCompany => true
  | .createCreditCard => true
  | .flushChanges => true
  | .createUser => true
  | _ => false

/-- The event is a call of the auxiliary client. -/
def CallEvent.isGetCreditCards : CallEvent → Bool
  | .getCreditCards _ => true
  | _ => false

/-- An exception escaping `sync_users`: the explicit
"Insufficient credit card data received from external API batch request."
`Exception`, or a Python error propagated out of the create loop. -/
inductive SyncError where
  | insufficientCreditCardData
  | pyError (e : PyError)
deriving DecidableEq

/-- The observable outcome of one pass: the return value or escaped error,
the final session state, and the trace of calls made. -/
structure SyncOutcome where
  result : Except SyncError (List User)
  store : EntityStore
  trace : List CallEvent

namespace UsersService

/-- The `new_users_data` filter of `sync_users`: fetched records whose id is
not found in the store, in fetch order. -/
def newUsers (store : EntityStore) (usersData : List UserRecord) : List UserRecord :=
  usersData.filter (fun d => (UsersRepository.get_user_by_id store d.id).isNone)

/-- One iteration of the create loop of `sync_users` for the pair of a new
user record and its positionally matched auxiliary record: create the
address, the company and the credit card, flush to obtain their ids, then
create the user linking the three ids.  State, result and the events of the
calls actually reached are returned; an error leaves the rows staged so far
in the session (rollback is the callers job). -/
def processUser (store : EntityStore) (d : UserRecord) (card : CardData) :
    Except PyError User × EntityStore × List CallEvent :=
  match getItem d.address "address" with
  | .error e => (.error e, store, [])
  | .ok addrData =>
    match UsersRepository.create_address store addrData with
    | .error e => (.error e, store, [.createAddress])
    | .ok (_, store1) =>
      match getItem d.company "company" with
      | .error e => (.error e, store1, [.createAddress])
      | .ok compData =>
        match UsersRepository.create_company store1 compData with
        | .error e => (.error e, store1, [.createAddress, .createCompany])
        | .ok (_, store2) =>
          match UsersRepository.create_credit_card store2 card with
          | .error e =>
            (.error e, store2, [.createAddress, .createCompany, .createCreditCard])
          | .ok (_, store3) =>
            let store4 := UsersRepository.flush_changes store3
            let address_id :=
              (store4.addresses.get? store.addresses.length).bind Address.id
            let company_id :=
              (store4.companies.get? store1.companies.length).bind Company.id
            let credit_card_id :=
              (store4.creditCards.get? store2.creditCards.length).bind CreditCard.id
            let r := UsersRepository.create_user store4 d
              address_id company_id credit_card_id
            (.ok r.1, r.2.2,
              [.createAddress, .createCompany, .createCreditCard,
               .flushChanges, .createUser])

/-- The create loop of `sync_users` over the positional pairs of new user
records and auxiliary records.  The first raised error aborts the loop and
propagates. -/
def syncLoop (store : EntityStore) :
    List (UserRecord × CardData) → Except PyError (List User) × EntityStore × List CallEvent
  | [] => (.ok [], store, [])
  | (d, card) :: rest =>
    match processUser store d card with
    | (.error e, store1, tr) => (.error e, store1, tr)
    | (.ok user, store1, tr) =>
      match syncLoop store1 rest with
      | (.error e, store2, tr2) => (.error e, store2, tr ++ tr2)
      | (.ok users, store2, tr2) => (.ok (user :: users), store2, tr ++ tr2)

/-- `UsersService.sync_users`.  `usersData` is what `get_users()` returned
(a network failure surfaces as `[]`); `creditCards q` is what
`get_credit_cards(q)` would return.  Mirrors the source: empty directory →
return `[]`; diff against the store; no new users → return `[]`; one batch
call for `len(new_users)` cards; fewer cards than new users → raise; else
run the create loop over the positionally zipped pairs and return the
created users. -/
def sync_users (store : EntityStore) (usersData : List UserRecord)
    (creditCards : Nat → List CardData) : SyncOutcome :=
  if usersData.isEmpty then
    ⟨.ok [], store, [.getUsers]⟩
  else
    let lookups := usersData.map (fun d => CallEvent.getUserById d.id)
    let new_users_data := newUsers store usersData
    let num_new_users := new_users_data.length
    if num_new_users = 0 then
      ⟨.ok [], store, .getUsers :: lookups⟩
    else
      let all_credit_cards := creditCards num_new_users
      let trace1 := .getUsers :: lookups ++ [.getCreditCards num_new_users]
      if all_credit_cards.length < num_new_users then
        ⟨.error .insufficientCreditCardData, store, trace1⟩
      else
        match syncLoop store (new_users_data.zip all_credit_cards) with
        | (.error e, store1, tr) => ⟨.error (.pyError e), store1, trace1 ++ tr⟩
        | (.ok created, store1, tr) => ⟨.ok created, store1, trace1 ++ tr⟩

end UsersService

/-! ### Expected results of a successful create step

These constructions describe, in closed form, the rows a successful loop
iteration stages and the user it returns; the lemmas below prove that the
embedded service code produces exactly them. -/

/-- The `Address` row staged for a complete address sub-record, once the
flush has assigned it the id `i`. -/
def Address.fromData (data : AddressData) (i : Nat) : Address :=
  { id := some i, street := data.street.getD "", suite := data.suite.getD "",
    city := data.city.getD "", zipcode := data.zipcode.getD "",
    geo_lat := (data.geo.getD { lat := none, lng := none }).lat.getD "",
    geo_lng := (data.geo.getD { lat := none, lng := none }).lng.getD "" }

/-- The `Company` row staged for a complete company sub-record. -/
def Company.fromData (data : CompanyData) (i : Nat) : Company :=
  { id := some i, name := data.name.getD "",
    catch_phrase := data.catchPhrase.getD "", bs := data.bs.getD "" }

/-- The `CreditCard` row staged for a complete auxiliary record. -/
def CreditCard.fromData (data : CardData) (i : Nat) : CreditCard :=
  { id := some i, type := data.type.getD "", number := data.number.getD "",
    expiration := data.expiration.getD "", owner := data.owner.getD "" }

/-- The `User` row built from a directory record and the three freshly
assigned foreign keys. -/
def User.fromRecord (d : UserRecord) (address_id : Nat) (company_id : Nat)
    (credit_card_id : Nat) : User :=
  { id := d.id, name := d.name, username := d.username, email := d.email,
    phone := d.phone, website := d.website,
    address_id := some address_id, company_id := some company_id,
    credit_card_id := some credit_card_id }

/-- The session state after one successful loop iteration: one flushed row
staged per child table, the linking user staged, the three autoincrement
counters advanced. -/
def stepStore (store : EntityStore) (d : UserRecord) (card : CardData) : EntityStore :=
  { addresses := store.addresses ++
      [Address.fromData
        (d.address.getD
          { street := none, suite := none, city := none, zipcode := none, geo := none })
        store.nextAddressId],
    companies := store.companies ++
      [Company.fromData (d.company.getD { name := none, catchPhrase := none, bs := none })
        store.nextCompanyId],
    creditCards := store.creditCards ++ [CreditCard.fromData card store.nextCreditCardId],
    users := store.users ++
      [User.fromRecord d store.nextAddressId store.nextCompanyId store.nextCreditCardId],
    nextAddressId := store.nextAddressId + 1,
    nextCompanyId := store.nextCompanyId + 1,
    nextCreditCardId := store.nextCreditCardId + 1,
    nextUserId := store.nextUserId }

/-- The users a successful create loop returns, and the final session state,
for the given positional pairs. -/
def loopSpec (store : EntityStore) :
    List (UserRecord × CardData) → List User × EntityStore
  | [] => ([], store)
  | (d, card) :: rest =>
    let u := User.fromRecord d store.nextAddressId store.nextCompanyId store.nextCreditCardId
    let r := loopSpec (stepStore store d card) rest
    (u :: r.1, r.2)

/-- The call trace of a successful create loop over `n` pairs. -/
def loopTrace : Nat → List CallEvent
  | 0 => []
  | n + 1 =>
    [.createAddress, .createCompany, .createCreditCard, .flushChanges, .createUser] ++
      loopTrace n

/-- The credit-card rows a successful create loop stages, in order, starting
from the autoincrement counter `next`. -/
def newCreditCards (next : Nat) : List (UserRecord × CardData) → List CreditCard
  | [] => []
  | (_, card) :: rest => CreditCard.fromData card next :: newCreditCards (next + 1) rest

/-! ### Concrete fixtures (mirroring the data of `tests/test_users.py`) -/

/-- An empty session: no rows, autoincrement counters at 1. -/
def exStore : EntityStore := ⟨[], [], [], [], 1, 1, 1, 1⟩

def exGeo : GeoData := { lat := some "1.0", lng := some "2.0" }

def exAddress : AddressData :=
  { street := some "Test Street", suite := some "Apt. 100", city := some "Testville",
    zipcode := some "12345", geo := some exGeo }

/-- An address record whose required `street` key is absent. -/
def exIncompleteAddress : AddressData :=
  { street := none, suite := some "Apt. 100", city := some "Testville",
    zipcode := some "12345", geo := some exGeo }

def exCompany : CompanyData :=
  { name := some "Test Company", catchPhrase := some "Test Phrase", bs := some "Test BS" }

def exCard : CardData :=
  { type := some "Visa", number := some "1111222233334444",
    expiration := some "12/25", owner := some "Test Owner" }

def exCard2 : CardData :=
  { type := some "MasterCard", number := some "5555666677778888",
    expiration := some "01/26", owner := some "Other Owner" }

def exRecord : UserRecord :=
  { id := some 101, name := some "Test User", username := some "tester",
    email := some "test@example.com", phone := some "123-456-7890",
    website := some "test.org", address := some exAddress, company := some exCompany,
    credit_card := none }

/-- The user row with id 101 as it sits in the store after a first pass. -/
def exStoredUser : User :=
  { id := some 101, name := some "Test User", username := some "tester",
    email := some "test@example.com", phone := some "123-456-7890",
    website := some "test.org", address_id := some 1, company_id := some 1,
    credit_card_id := some 1 }

/-- A session that already holds the user with id 101. -/
def exStoreWithUser : EntityStore := ⟨[], [], [], [exStoredUser], 2, 2, 2, 2⟩

/-- A FakerAPI body whose `data` array holds two records although one was
requested. -/
def exSurplusResp : Option Json := some (.obj [("data", .arr [.null, .null])])

/-- A FakerAPI body whose `data` entry is a truthy non-array value. -/
def exLeakResp : Option Json := some (.obj [("data", .num 7)])

/-! ### Lemmas about flushing -/

lemma flushIds_all_some {α : Type} (getId : α → Option Nat) (setId : α → Nat → α)
    (next : Nat) (l : List α) (h : ∀ x ∈ l, (getId x).isSome = true) :
    UsersRepository.flushIds getId setId next l = (l, next) := by
  induction l with
  | nil => rfl
  | cons x xs ih =>
    obtain ⟨i, hi⟩ := Option.isSome_iff_exists.mp (h x (by simp))
    simp [UsersRepository.flushIds, hi, ih (fun y hy => h y (by simp [hy]))]

lemma flushIds_append_none {α : Type} (getId : α → Option Nat) (setId : α → Nat → α)
    (next : Nat) (l : List α) (x : α)
    (h : ∀ y ∈ l, (getId y).isSome = true) (hx : getId x = none) :
    UsersRepository.flushIds getId setId next (l ++ [x]) =
      (l ++ [setId x next], next + 1) := by
  induction l with
  | nil => simp [UsersRepository.flushIds, hx]
  | cons y ys ih =>
    obtain ⟨i, hi⟩ := Option.isSome_iff_exists.mp (h y (by simp))
    simp [UsersRepository.flushIds, hi, ih (fun z hz => h z (by simp [hz]))]

/-! ### Inversion lemmas for the completeness predicates -/

lemma geoData_complete_elim {g : GeoData} (h : g.complete = true) :
    ∃ la ln, g.lat = some la ∧ g.lng = some ln := by
  obtain ⟨ola, oln⟩ := g
  simp only [GeoData.complete, Bool.and_eq_true, Option.isSome_iff_exists] at h
  obtain ⟨⟨la, hla⟩, ln, hln⟩ := h
  exact ⟨la, ln, hla, hln⟩

lemma addressData_complete_elim {a : AddressData} (h : a.complete = true) :
    ∃ st su ci zi g, a.street = some st ∧ a.suite = some su ∧ a.city = some ci ∧
      a.zipcode = some zi ∧ a.geo = some g ∧ g.complete = true := by
  obtain ⟨ost, osu, oci, ozi, og⟩ := a
  cases og with
  | none => simp [AddressData.complete] at h
  | some g =>
    simp only [AddressData.complete, Bool.and_eq_true, Option.isSome_iff_exists] at h
    obtain ⟨⟨⟨⟨⟨st, hst⟩, su, hsu⟩, ci, hci⟩, zi, hzi⟩, hg⟩ := h
    exact ⟨st, su, ci, zi, g, hst, hsu, hci, hzi, rfl, hg⟩

lemma companyData_complete_elim {c : CompanyData} (h : c.complete = true) :
    ∃ na cp bs, c.name = some na ∧ c.catchPhrase = some cp ∧ c.bs = some bs := by
  obtain ⟨ona, ocp, obs⟩ := c
  simp only [CompanyData.complete, Bool.and_eq_true, Option.isSome_iff_exists] at h
  obtain ⟨⟨⟨na, hna⟩, cp, hcp⟩, bs, hbs⟩ := h
  exact ⟨na, cp, bs, hna, hcp, hbs⟩

lemma cardData_complete_elim {c : CardData} (h : c.complete = true) :
    ∃ ty nu ex ow, c.type = some ty ∧ c.number = some nu ∧ c.expiration = some ex ∧
      c.owner = some ow := by
  obtain ⟨oty, onu, oex, oow⟩ := c
  simp only [CardData.complete, Bool.and_eq_true, Option.isSome_iff_exists] at h
  obtain ⟨⟨⟨⟨ty, hty⟩, nu, hnu⟩, ex, hex⟩, ow, how⟩ := h
  exact ⟨ty, nu, ex, ow, hty, hnu, hex, how⟩

lemma userRecord_complete_elim {d : UserRecord} (h : d.complete = true) :
    ∃ i a c, d.id = some i ∧ d.address = some a ∧ a.complete = true ∧
      d.company = some c ∧ c.complete = true := by
  obtain ⟨oid, ona, ous, oem, oph, owe, oa, oc, occ⟩ := d
  cases oa with
  | none => simp [UserRecord.complete] at h
  | some a =>
    cases oc with
    | none => simp [UserRecord.complete] at h
    | some c =>
      simp only [UserRecord.complete, Bool.and_eq_true, Option.isSome_iff_exists] at h
      obtain ⟨⟨⟨i, hi⟩, ha⟩, hc⟩ := h
      exact ⟨i, a, c, hi, rfl, ha, rfl, hc⟩

/-! ### The create loop computes `loopSpec` -/

lemma processUser_ok (store : EntityStore) (d : UserRecord) (card : CardData)
    (hs : store.flushed = true) (hd : d.complete = true) (hc : card.complete = true) :
    UsersService.processUser store d card =
      (.ok (User.fromRecord d store.nextAddressId store.nextCompanyId
          store.nextCreditCardId),
       stepStore store d card,
       [.createAddress, .createCompany, .createCreditCard, .flushChanges,
        .createUser]) := by
  obtain ⟨i, a, c, hi, ha, hac, hcc, hcc2⟩ := userRecord_complete_elim hd
  obtain ⟨st, su, ci, zi, g, hst, hsu, hci, hzi, hg, hgc⟩ := addressData_complete_elim hac
  obtain ⟨la, ln, hla, hln⟩ := geoData_complete_elim hgc
  obtain ⟨na, cp, bs, hna, hcp, hbs⟩ := companyData_complete_elim hcc2
  obtain ⟨ty, nu, ex, ow, hty, hnu, hex, how⟩ := cardData_complete_elim hc
  obtain ⟨addrs, comps, ccs, us, nA, nC, nCC, nU⟩ := store
  simp only [EntityStore.flushed, Bool.and_eq_true, List.all_eq_true] at hs
  obtain ⟨⟨⟨hsa, hsc⟩, hscc⟩, hsu2⟩ := hs
  simp only [UsersService.processUser, UsersRepository.create_address,
    UsersRepository.create_company, UsersRepository.create_credit_card,
    UsersRepository.create_user, getItem, ha, hg, hcc, hst, hsu, hci, hzi, hla, hln,
    hna, hcp, hbs, hty, hnu, hex, how, bind, Except.bind, pure, Except.pure]
  simp only [UsersRepository.flush_changes]
  rw [flushIds_append_none _ _ _ _ _ hsa rfl]
  rw [flushIds_append_none _ _ _ _ _ hsc rfl]
  rw [flushIds_append_none _ _ _ _ _ hscc rfl]
  rw [flushIds_all_some _ _ _ _ (fun u hu => by
    simpa using hsu2 u hu)]
  simp only [List.get?_concat_length, Option.bind_some]
  simp [stepStore, User.fromRecord, Address.fromData, Company.fromData,
    CreditCard.fromData, hi, ha, hg, hcc, hst, hsu, hci, hzi, hla, hln, hna, hcp, hbs,
    hty, hnu, hex, how]

lemma stepStore_flushed (store : EntityStore) (d : UserRecord) (card : CardData)
    (hs : store.flushed = true) (hd : d.id.isSome = true) :
    (stepStore store d card).flushed = true := by
  simp only [EntityStore.flushed, Bool.and_eq_true, List.all_eq_true, stepStore,
    List.mem_append, List.mem_singleton] at hs ⊢
  obtain ⟨⟨⟨hsa, hsc⟩, hscc⟩, hsu⟩ := hs
  refine ⟨⟨⟨?_, ?_⟩, ?_⟩, ?_⟩ <;> rintro x (hx | rfl)
  · exact hsa x hx
  · rfl
  · exact hsc x hx
  · rfl
  · exact hscc x hx
  · rfl
  · exact hsu x hx
  · simpa [User.fromRecord] using hd

lemma syncLoop_ok : ∀ (pairs : List (UserRecord × CardData)) (store : EntityStore),
    store.flushed = true →
    (∀ p ∈ pairs, p.1.complete = true ∧ p.2.complete = true) →
    UsersService.syncLoop store pairs =
      (.ok (loopSpec store pairs).1, (loopSpec store pairs).2, loopTrace pairs.length)
  | [], _, _, _ => rfl
  | (d, card) :: rest, store, hs, hp => by
    have hd : d.complete = true := (hp (d, card) (by simp)).1
    have hc : card.complete = true := (hp (d, card) (by simp)).2
    have hid : d.id.isSome = true := by
      obtain ⟨i, _, _, hi, _⟩ := userRecord_complete_elim hd
      simp [hi]
    have hrec := syncLoop_ok rest (stepStore store d card)
      (stepStore_flushed store d card hs hid) (fun p hp2 => hp p (by simp [hp2]))
    simp [UsersService.syncLoop, processUser_ok store d card hs hd hc, hrec, loopSpec,
      loopTrace]

lemma loopSpec_get : ∀ (pairs : List (UserRecord × CardData)) (store : EntityStore)
    (i : Nat) (d : UserRecord) (card : CardData), pairs.get? i = some (d, card) →
    (loopSpec store pairs).1.get? i =
      some (User.fromRecord d (store.nextAddressId + i) (store.nextCompanyId + i)
        (store.nextCreditCardId + i))
  | [], _, i, _, _, h => by simp at h
  | (d0, c0) :: rest, store, 0, d, card, h => by
    simp only [List.get?_cons_zero, Option.some_inj, Prod.mk.injEq] at h
    obtain ⟨rfl, rfl⟩ := h
    simp [loopSpec]
  | (d0, c0) :: rest, store, i + 1, d, card, h => by
    simp only [List.get?_cons_succ] at h
    have ih := loopSpec_get rest (stepStore store d0 c0) i d card h
    simp only [stepStore] at ih
    simpa [loopSpec, Nat.add_assoc, Nat.add_comm 1 i] using ih

lemma loopSpec_creditCards : ∀ (pairs : List (UserRecord × CardData))
    (store : EntityStore),
    (loopSpec store pairs).2.creditCards =
      store.creditCards ++ newCreditCards store.nextCreditCardId pairs
  | [], store => by simp [loopSpec, newCreditCards]
  | (d, card) :: rest, store => by
    have ih := loopSpec_creditCards rest (stepStore store d card)
    simp only [loopSpec, ih]
    simp [stepStore, newCreditCards, List.append_assoc]

lemma newCreditCards_get : ∀ (pairs : List (UserRecord × CardData)) (next i : Nat)
    (d : UserRecord) (card : CardData), pairs.get? i = some (d, card) →
    (newCreditCards next pairs).get? i = some (CreditCard.fromData card (next + i))
  | [], _, i, _, _, h => by simp at h
  | (d0, c0) :: rest, next, 0, d, card, h => by
    simp only [List.get?_cons_zero, Option.some_inj, Prod.mk.injEq] at h
    obtain ⟨rfl, rfl⟩ := h
    simp [newCreditCards]
  | (d0, c0) :: rest, next, i + 1, d, card, h => by
    simp only [List.get?_cons_succ] at h
    simpa [newCreditCards, Nat.add_assoc, Nat.add_comm 1 i] using
      newCreditCards_get rest (next + 1) i d card h

lemma loopSpec_lengths : ∀ (pairs : List (UserRecord × CardData)) (store : EntityStore),
    (loopSpec store pairs).2.addresses.length = store.addresses.length + pairs.length ∧
    (loopSpec store pairs).2.companies.length = store.companies.length + pairs.length ∧
    (loopSpec store pairs).2.creditCards.length =
      store.creditCards.length + pairs.length ∧
    (loopSpec store pairs).2.users.length = store.users.length + pairs.length
  | [], store => by simp [loopSpec]
  | (d, card) :: rest, store => by
    obtain ⟨h1, h2, h3, h4⟩ := loopSpec_lengths rest (stepStore store d card)
    simp only [loopSpec, List.length_cons]
    rw [h1, h2, h3, h4]
    simp only [stepStore, List.length_append, List.length_singleton]
    omega

/-! ### What kinds of events a create loop can record -/

lemma processUser_trace (store : EntityStore) (d : UserRecord) (card : CardData) :
    ∀ e ∈ (UsersService.processUser store d card).2.2, e.isCreation = true := by
  intro e he
  unfold UsersService.processUser at he
  repeat' split at he
  all_goals simp only [List.mem_cons, List.mem_singleton, List.not_mem_nil, or_false] at he
  all_goals first
    | exact he.elim
    | (rcases he with rfl | rfl | rfl | rfl | rfl <;> rfl)
    | (subst he; rfl)

lemma syncLoop_trace : ∀ (pairs : List (UserRecord × CardData)) (store : EntityStore),
    ∀ e ∈ (UsersService.syncLoop store pairs).2.2, e.isCreation = true
  | [], store => by simp [UsersService.syncLoop]
  | (d, card) :: rest, store => by
    intro e he
    rw [UsersService.syncLoop] at he
    rcases h1 : UsersService.processUser store d card with ⟨r1, store1, tr1⟩
    rw [h1] at he
    have htr1 : ∀ x ∈ tr1, CallEvent.isCreation x = true := fun x hx =>
      processUser_trace store d card x (by rw [h1]; exact hx)
    cases r1 with
    | error err => exact htr1 e he
    | ok u =>
      dsimp only at he
      rcases h2 : UsersService.syncLoop store1 rest with ⟨r2, store2, tr2⟩
      rw [h2] at he
      have htr2 : ∀ x ∈ tr2, CallEvent.isCreation x = true := fun x hx =>
        syncLoop_trace rest store1 x (by rw [h2]; exact hx)
      cases r2 with
      | error err =>
        rcases List.mem_append.mp he with he | he
        · exact htr1 e he
        · exact htr2 e he
      | ok us =>
        rcases List.mem_append.mp he with he | he
        · exact htr1 e he
        · exact htr2 e he

lemma isCreation_not_getCreditCards {e : CallEvent} (h : e.isCreation = true) :
    e.isGetCreditCards = false := by
  cases e <;> simp_all [CallEvent.isCreation, CallEvent.isGetCreditCards]

lemma isGetCreditCards_getUsers : CallEvent.isGetCreditCards .getUsers = false := rfl

lemma isGetCreditCards_getUserById (i : Option Int) :
    (CallEvent.getUserById i).isGetCreditCards = false := rfl

lemma isGetCreditCards_getCreditCards (q : Nat) :
    (CallEvent.getCreditCards q).isGetCreditCards = true := rfl

lemma loopSpec_length : ∀ (pairs : List (UserRecord × CardData)) (store : EntityStore),
    (loopSpec store pairs).1.length = pairs.length
  | [], _ => rfl
  | (d, card) :: rest, store => by
    simp [loopSpec, loopSpec_length rest (stepStore store d card)]

lemma zip_get_some {α β : Type} : ∀ (l1 : List α) (l2 : List β) (i : Nat) (a : α) (b : β),
    l1.get? i = some a → l2.get? i = some b → (l1.zip l2).get? i = some (a, b)
  | [], _, i, _, _, h1, _ => by simp at h1
  | _ :: _, [], i, _, _, _, h2 => by simp at h2
  | x :: xs, y :: ys, 0, a, b, h1, h2 => by
    simp only [List.get?_cons_zero, Option.some_inj] at h1 h2
    simp [List.zip_cons_cons, h1, h2]
  | x :: xs, y :: ys, i + 1, a, b, h1, h2 => by
    simp only [List.get?_cons_succ] at h1 h2
    simpa [List.zip_cons_cons] using zip_get_some xs ys i a b h1 h2

/-! ### Branch lemmas for `sync_users` -/

lemma newUsers_ne_nil_isEmpty {store : EntityStore} {usersData : List UserRecord}
    (h : UsersService.newUsers store usersData ≠ []) : usersData.isEmpty = false := by
  cases usersData with
  | nil => exact absurd rfl h
  | cons d rest => rfl

lemma sync_users_insufficient (store : EntityStore) (usersData : List UserRecord)
    (creditCards : Nat → List CardData)
    (hne : UsersService.newUsers store usersData ≠ [])
    (hshort : (creditCards (UsersService.newUsers store usersData).length).length <
      (UsersService.newUsers store usersData).length) :
    UsersService.sync_users store usersData creditCards =
      ⟨.error .insufficientCreditCardData, store,
        .getUsers :: usersData.map (fun d => CallEvent.getUserById d.id) ++
          [.getCreditCards (UsersService.newUsers store usersData).length]⟩ := by
  have hlen : (UsersService.newUsers store usersData).length ≠ 0 := by
    simpa [List.length_eq_zero] using hne
  simp [UsersService.sync_users, newUsers_ne_nil_isEmpty hne, hlen, hshort]

lemma sync_users_no_new (store : EntityStore) (usersData : List UserRecord)
    (creditCards : Nat → List CardData)
    (hne : usersData.isEmpty = false)
    (hnew : UsersService.newUsers store usersData = []) :
    UsersService.sync_users store usersData creditCards =
      ⟨.ok [], store, .getUsers :: usersData.map (fun d => CallEvent.getUserById d.id)⟩ := by
  simp [UsersService.sync_users, hne, hnew]

lemma sync_users_loop_trace (store : EntityStore) (usersData : List UserRecord)
    (creditCards : Nat → List CardData)
    (hne : UsersService.newUsers store usersData ≠ [])
    (hfit : ¬ (creditCards (UsersService.newUsers store usersData).length).length <
      (UsersService.newUsers store usersData).length) :
    (UsersService.sync_users store usersData creditCards).trace =
      .getUsers :: usersData.map (fun d => CallEvent.getUserById d.id) ++
        [.getCreditCards (UsersService.newUsers store usersData).length] ++
        (UsersService.syncLoop store
          ((UsersService.newUsers store usersData).zip
            (creditCards (UsersService.newUsers store usersData).length))).2.2 := by
  have hlen : (UsersService.newUsers store usersData).length ≠ 0 := by
    simpa [List.length_eq_zero] using hne
  rcases hloop : UsersService.syncLoop store
      ((UsersService.newUsers store usersData).zip
        (creditCards (UsersService.newUsers store usersData).length)) with ⟨r, store1, tr⟩
  cases r <;>
    simp [UsersService.sync_users, newUsers_ne_nil_isEmpty hne, hlen, hfit, hloop]

lemma sync_users_loop_ok (store : EntityStore) (usersData : List UserRecord)
    (creditCards : Nat → List CardData) (created : List User) (store1 : EntityStore)
    (tr : List CallEvent)
    (hne : UsersService.newUsers store usersData ≠ [])
    (hfit : ¬ (creditCards (UsersService.newUsers store usersData).length).length <
      (UsersService.newUsers store usersData).length)
    (hloop : UsersService.syncLoop store
        ((UsersService.newUsers store usersData).zip
          (creditCards (UsersService.newUsers store usersData).length)) =
      (.ok created, store1, tr)) :
    UsersService.sync_users store usersData creditCards =
      ⟨.ok created, store1,
        .getUsers :: usersData.map (fun d => CallEvent.getUserById d.id) ++
          [.getCreditCards (UsersService.newUsers store usersData).length] ++ tr⟩ := by
  have hlen : (UsersService.newUsers store usersData).length ≠ 0 := by
    simpa [List.length_eq_zero] using hne
  simp [UsersService.sync_users, newUsers_ne_nil_isEmpty hne, hlen, hfit, hloop]

/-! ### Claims -/

/-- C1: whenever the diff step finds at least one new user and the auxiliary
batch returns strictly fewer records than there are new users, `sync_users`
raises the insufficient-credit-card-data error, records no `create_address`,
`create_company`, `create_credit_card`, `create_user` or `flush_changes`
call, and leaves the entity store exactly as it was before the pass. -/
theorem C1_insufficient_data_fail_fast (store : EntityStore)
    (usersData : List UserRecord) (creditCards : Nat → List CardData)
    (hne : UsersService.newUsers store usersData ≠ [])
    (hshort : (creditCards (UsersService.newUsers store usersData).length).length <
      (UsersService.newUsers store usersData).length) :
    (UsersService.sync_users store usersData creditCards).result =
        .error .insufficientCreditCardData ∧
      (UsersService.sync_users store usersData creditCards).store = store ∧
      ((UsersService.sync_users store usersData creditCards).trace.all
        fun e => !e.isCreation) = true := by
  rw [sync_users_insufficient store usersData creditCards hne hshort]
  refine ⟨rfl, rfl, ?_⟩
  simp only [List.all_eq_true]
  intro e he
  rcases List.mem_cons.mp he with rfl | he
  · rfl
  rcases List.mem_append.mp he with he | he
  · obtain ⟨d, _, rfl⟩ := List.mem_map.mp he
    rfl
  · rcases List.mem_singleton.mp he with rfl
    rfl

/-- C1 witness: one new user, an empty auxiliary batch. -/
theorem C1_insufficient_data_fail_fast_witness :
    (UsersService.sync_users exStore [exRecord] fun _ => []).result =
        .error .insufficientCreditCardData ∧
      (UsersService.sync_users exStore [exRecord] fun _ => []).store = exStore ∧
      ((UsersService.sync_users exStore [exRecord] fun _ => []).trace.all
        fun e => !e.isCreation) = true :=
  C1_insufficient_data_fail_fast exStore [exRecord] (fun _ => []) (by decide) (by decide)

/-- C2: with K ≥ 1 new users identified, the auxiliary client is called
exactly once during the pass, with quantity K, whatever it returns and
however the pass ends. -/
theorem C2_single_batch_call (store : EntityStore) (usersData : List UserRecord)
    (creditCards : Nat → List CardData)
    (hne : UsersService.newUsers store usersData ≠ []) :
    (UsersService.sync_users store usersData creditCards).trace.filter
        (fun e => e.isGetCreditCards) =
      [.getCreditCards (UsersService.newUsers store usersData).length] := by
  have hmap : (usersData.map fun d => CallEvent.getUserById d.id).filter
      (fun e => e.isGetCreditCards) = [] := by
    rw [List.filter_eq_nil]
    intro e he
    obtain ⟨d, _, rfl⟩ := List.mem_map.mp he
    simp [isGetCreditCards_getUserById]
  by_cases hshort : (creditCards (UsersService.newUsers store usersData).length).length <
      (UsersService.newUsers store usersData).length
  · rw [sync_users_insufficient store usersData creditCards hne hshort]
    simp [List.filter_cons, List.filter_append, hmap, isGetCreditCards_getUsers,
      isGetCreditCards_getCreditCards]
  · rw [sync_users_loop_trace store usersData creditCards hne hshort]
    have htr : (UsersService.syncLoop store
        ((UsersService.newUsers store usersData).zip
          (creditCards (UsersService.newUsers store usersData).length))).2.2.filter
        (fun e => e.isGetCreditCards) = [] := by
      rw [List.filter_eq_nil]
      intro e he
      simp [isCreation_not_getCreditCards (syncLoop_trace _ _ e he)]
    simp [List.filter_cons, List.filter_append, hmap, htr, isGetCreditCards_getUsers,
      isGetCreditCards_getCreditCards]

/-- C2 witness: one new user, a sufficient batch. -/
theorem C2_single_batch_call_witness :
    (UsersService.sync_users exStore [exRecord] fun _ => [exCard]).trace.filter
        (fun e => e.isGetCreditCards) =
      [.getCreditCards 1] :=
  C2_single_batch_call exStore [exRecord] (fun _ => [exCard]) (by decide)

/-- C4: when every fetched user id is already present in the store, the pass
returns the empty list, never calls the auxiliary client, performs no write,
and leaves the store unchanged. -/
theorem C4_idempotent_unchanged_directory (store : EntityStore)
    (usersData : List UserRecord) (creditCards : Nat → List CardData)
    (hall : ∀ d ∈ usersData, (UsersRepository.get_user_by_id store d.id).isSome = true) :
    (UsersService.sync_users store usersData creditCards).result = .ok [] ∧
      (UsersService.sync_users store usersData creditCards).store = store ∧
      ((UsersService.sync_users store usersData creditCards).trace.all
        fun e => !e.isGetCreditCards && !e.isCreation) = true := by
  have hnew : UsersService.newUsers store usersData = [] := by
    simp only [UsersService.newUsers, List.filter_eq_nil]
    intro d hd
    simp [Option.isNone_iff_eq_none, ← Option.isSome_iff_ne_none, hall d hd]
  cases usersData with
  | nil => exact ⟨rfl, rfl, rfl⟩
  | cons d0 rest =>
    rw [sync_users_no_new store (d0 :: rest) creditCards rfl hnew]
    refine ⟨rfl, rfl, ?_⟩
    simp only [List.all_eq_true]
    intro e he
    rcases List.mem_cons.mp he with rfl | he
    · rfl
    · obtain ⟨d, _, rfl⟩ := List.mem_map.mp he
      rfl

/-- C4 witness: the directory returns the already stored user 101. -/
theorem C4_idempotent_unchanged_directory_witness :
    (UsersService.sync_users exStoreWithUser [exRecord] fun _ => [exCard]).result =
        .ok [] ∧
      (UsersService.sync_users exStoreWithUser [exRecord] fun _ => [exCard]).store =
        exStoreWithUser ∧
      ((UsersService.sync_users exStoreWithUser [exRecord] fun _ => [exCard]).trace.all
        fun e => !e.isGetCreditCards && !e.isCreation) = true :=
  C4_idempotent_unchanged_directory exStoreWithUser [exRecord] (fun _ => [exCard])
    (by decide)

/-- C5 counterexample: an auxiliary-client failure, surfacing as an empty
batch while one new user exists, makes `sync_users` raise the insufficiency
error — the pass does not end in the EMPTY state. -/
theorem C5_aux_failure_fatal_counterexample :
    (UsersService.sync_users exStore [exRecord] fun _ => []).result =
      .error .insufficientCreditCardData := rfl

/-- C5 (amended): a directory-client failure, surfacing as an empty
directory result, is non-fatal — the pass returns the empty list with the
store untouched; an auxiliary-client failure, surfacing as an empty batch,
is fatal whenever at least one new user exists: the pass raises the
insufficient-credit-card-data error. -/
theorem C5_amended_upstream_failures (store : EntityStore)
    (creditCards : Nat → List CardData) :
    ((UsersService.sync_users store [] creditCards).result = .ok [] ∧
      (UsersService.sync_users store [] creditCards).store = store) ∧
    ∀ usersData : List UserRecord, UsersService.newUsers store usersData ≠ [] →
      (UsersService.sync_users store usersData fun _ => []).result =
        .error .insufficientCreditCardData := by
  refine ⟨⟨rfl, rfl⟩, ?_⟩
  intro usersData hne
  have hshort : (([] : List CardData)).length <
      (UsersService.newUsers store usersData).length := by
    simpa using List.length_pos.mpr hne
  rw [sync_users_insufficient store usersData (fun _ => []) hne hshort]

/-- C5 (amended) witness: empty directory is non-fatal; empty auxiliary
batch with one new user raises. -/
theorem C5_amended_upstream_failures_witness :
    (UsersService.sync_users exStore [] fun _ => [exCard]).result = .ok [] ∧
      (UsersService.sync_users exStore [exRecord] fun _ => []).result =
        .error .insufficientCreditCardData :=
  ⟨(C5_amended_upstream_failures exStore fun _ => [exCard]).1.1,
    (C5_amended_upstream_failures exStore fun _ => [exCard]).2 [exRecord] (by decide)⟩

/-- C3: in a successful pass (fully flushed store, well-formed records, a
sufficient batch), the returned list has exactly one created user per new
user, in processing order, and the i-th created user is built from the i-th
new user in fetch order with its `credit_card_id` equal to the id of the
`CreditCard` row built from the i-th auxiliary record — positional pairing,
no content-based matching. -/
theorem C3_positional_pairing (store : EntityStore) (usersData : List UserRecord)
    (creditCards : Nat → List CardData)
    (hs : store.flushed = true)
    (hwf : ∀ d ∈ UsersService.newUsers store usersData, d.complete = true)
    (hcards : ∀ c ∈ creditCards (UsersService.newUsers store usersData).length,
      c.complete = true)
    (hfit : (UsersService.newUsers store usersData).length ≤
      (creditCards (UsersService.newUsers store usersData).length).length) :
    ∃ created : List User,
      (UsersService.sync_users store usersData creditCards).result = .ok created ∧
      created.length = (UsersService.newUsers store usersData).length ∧
      ∀ i d card, (UsersService.newUsers store usersData).get? i = some d →
        (creditCards (UsersService.newUsers store usersData).length).get? i = some card →
        created.get? i = some (User.fromRecord d (store.nextAddressId + i)
            (store.nextCompanyId + i) (store.nextCreditCardId + i)) ∧
        (UsersService.sync_users store usersData creditCards).store.creditCards.get?
            (store.creditCards.length + i) =
          some (CreditCard.fromData card (store.nextCreditCardId + i)) := by
  by_cases hne : UsersService.newUsers store usersData = []
  · refine ⟨[], ?_, by simp [hne], ?_⟩
    · cases usersData with
      | nil => rfl
      | cons d0 rest => rw [sync_users_no_new store (d0 :: rest) creditCards rfl hne]
    · intro i d card hd _
      rw [hne] at hd
      simp at hd
  · have hfit2 : ¬ (creditCards (UsersService.newUsers store usersData).length).length <
        (UsersService.newUsers store usersData).length := not_lt.mpr hfit
    have hpairs : ∀ p ∈ (UsersService.newUsers store usersData).zip
        (creditCards (UsersService.newUsers store usersData).length),
        p.1.complete = true ∧ p.2.complete = true := by
      rintro ⟨a, b⟩ hp
      have hab := List.of_mem_zip hp
      exact ⟨hwf a hab.1, hcards b hab.2⟩
    have hloop := syncLoop_ok ((UsersService.newUsers store usersData).zip
      (creditCards (UsersService.newUsers store usersData).length)) store hs hpairs
    have hok := sync_users_loop_ok store usersData creditCards _ _ _ hne hfit2 hloop
    refine ⟨_, by rw [hok], ?_, ?_⟩
    · rw [loopSpec_length, List.length_zip]
      exact Nat.min_eq_left hfit
    · intro i d card hd hcard
      have hzip := zip_get_some _ _ i d card hd hcard
      constructor
      · exact loopSpec_get _ store i d card hzip
      · rw [hok]
        show (loopSpec store _).2.creditCards.get? _ = _
        rw [loopSpec_creditCards, List.get?_append_right (Nat.le_add_right _ _)]
        simpa using newCreditCards_get _ store.nextCreditCardId i d card hzip

/-- C3 witness: one new user, one auxiliary record. -/
theorem C3_positional_pairing_witness :
    (UsersService.sync_users exStore [exRecord] fun _ => [exCard]).result =
      .ok [User.fromRecord exRecord 1 1 1] := by
  obtain ⟨created, hres, hlen, hpair⟩ :=
    C3_positional_pairing exStore [exRecord] (fun _ => [exCard]) (by decide) (by decide)
      (by decide) (by decide)
  have hlen1 : created.length = 1 := hlen
  rcases created with _ | ⟨u0, _ | ⟨u1, rest⟩⟩
  · exact absurd hlen1 (by simp)
  · have h0 := (hpair 0 exRecord exCard rfl rfl).1
    simp only [List.get?_cons_zero, Option.some_inj] at h0
    rw [hres, h0]
    rfl
  · simp at hlen1

/-- C10: when the auxiliary batch returns strictly more records than there
are new users, the pass still succeeds; exactly one row per table is created
per new user (so nothing at all is created from the surplus records), and
the credit-card rows staged are exactly those built, in order, from the
first `len(new_users)` auxiliary records. -/
theorem C10_surplus_auxiliary_ignored (store : EntityStore)
    (usersData : List UserRecord) (creditCards : Nat → List CardData)
    (hs : store.flushed = true)
    (hwf : ∀ d ∈ UsersService.newUsers store usersData, d.complete = true)
    (hcards : ∀ c ∈ creditCards (UsersService.newUsers store usersData).length,
      c.complete = true)
    (hmore : (UsersService.newUsers store usersData).length <
      (creditCards (UsersService.newUsers store usersData).length).length) :
    ∃ created : List User,
      (UsersService.sync_users store usersData creditCards).result = .ok created ∧
      created.length = (UsersService.newUsers store usersData).length ∧
      (UsersService.sync_users store usersData creditCards).store.creditCards =
        store.creditCards ++ newCreditCards store.nextCreditCardId
          ((UsersService.newUsers store usersData).zip
            (creditCards (UsersService.newUsers store usersData).length)) ∧
      (UsersService.sync_users store usersData creditCards).store.addresses.length =
        store.addresses.length + (UsersService.newUsers store usersData).length ∧
      (UsersService.sync_users store usersData creditCards).store.companies.length =
        store.companies.length + (UsersService.newUsers store usersData).length ∧
      (UsersService.sync_users store usersData creditCards).store.creditCards.length =
        store.creditCards.length + (UsersService.newUsers store usersData).length ∧
      (UsersService.sync_users store usersData creditCards).store.users.length =
        store.users.length + (UsersService.newUsers store usersData).length := by
  by_cases hne : UsersService.newUsers store usersData = []
  · have hres : UsersService.sync_users store usersData creditCards =
        ⟨.ok [], store, (UsersService.sync_users store usersData creditCards).trace⟩ := by
      cases usersData with
      | nil => rfl
      | cons d0 rest => rw [sync_users_no_new store (d0 :: rest) creditCards rfl hne]
    refine ⟨[], ?_, by simp [hne], ?_, ?_, ?_, ?_, ?_⟩ <;>
      rw [hres] <;> simp [hne, newCreditCards]
  · have hfit2 : ¬ (creditCards (UsersService.newUsers store usersData).length).length <
        (UsersService.newUsers store usersData).length := not_lt.mpr (Nat.le_of_lt hmore)
    have hpairs : ∀ p ∈ (UsersService.newUsers store usersData).zip
        (creditCards (UsersService.newUsers store usersData).length),
        p.1.complete = true ∧ p.2.complete = true := by
      rintro ⟨a, b⟩ hp
      have hab := List.of_mem_zip hp
      exact ⟨hwf a hab.1, hcards b hab.2⟩
    have hloop := syncLoop_ok ((UsersService.newUsers store usersData).zip
      (creditCards (UsersService.newUsers store usersData).length)) store hs hpairs
    have hok := sync_users_loop_ok store usersData creditCards _ _ _ hne hfit2 hloop
    have hziplen : ((UsersService.newUsers store usersData).zip
        (creditCards (UsersService.newUsers store usersData).length)).length =
        (UsersService.newUsers store usersData).length := by
      rw [List.length_zip]
      exact Nat.min_eq_left (Nat.le_of_lt hmore)
    obtain ⟨hla, hlc, hlcc, hlu⟩ := loopSpec_lengths ((UsersService.newUsers store
      usersData).zip (creditCards (UsersService.newUsers store usersData).length)) store
    refine ⟨_, by rw [hok], ?_, ?_, ?_, ?_, ?_, ?_⟩
    · rw [loopSpec_length, hziplen]
    · rw [hok]
      show (loopSpec store _).2.creditCards = _
      exact loopSpec_creditCards _ store
    · rw [hok]
      show (loopSpec store _).2.addresses.length = _
      rw [hla, hziplen]
    · rw [hok]
      show (loopSpec store _).2.companies.length = _
      rw [hlc, hziplen]
    · rw [hok]
      show (loopSpec store _).2.creditCards.length = _
      rw [hlcc, hziplen]
    · rw [hok]
      show (loopSpec store _).2.users.length = _
      rw [hlu, hziplen]

/-- C10 witness: one new user, two auxiliary records — one card row staged,
one user row staged, nothing from the surplus record. -/
theorem C10_surplus_auxiliary_ignored_witness :
    (UsersService.sync_users exStore [exRecord]
        fun _ => [exCard, exCard2]).store.creditCards =
      [CreditCard.fromData exCard 1] ∧
    (UsersService.sync_users exStore [exRecord]
        fun _ => [exCard, exCard2]).store.users.length = 1 := by
  obtain ⟨created, hres, hlen, hcc, hla, hlc, hlcc, hlu⟩ :=
    C10_surplus_auxiliary_ignored exStore [exRecord] (fun _ => [exCard, exCard2])
      (by decide) (by decide) (by decide) (by decide)
  exact ⟨hcc, hlu⟩

/-- C6 counterexample: for quantity 1 the client returns the two-element
`data` array unchanged, so the returned sequence is longer than the
requested quantity (2 records for quantity 1). -/
theorem C6_length_bound_counterexample :
    FakerApiClient.get_credit_cards 1 exSurplusResp = .arr [.null, .null] ∧
      ¬ (2 ≤ 1) := ⟨rfl, by decide⟩

/-- C6 (amended): `get_credit_cards` never truncates — it returns either the
empty array (for quantity ≤ 0, client failures, non-object bodies, and
absent or falsy `data` entries) or the `data` value of the envelope exactly
as received, whatever its length; any bound on the length comes from the
upstream API, not from the client. -/
theorem C6_amended_no_truncation (quantity : Int) (resp : Option Json) :
    FakerApiClient.get_credit_cards quantity resp = .arr [] ∨
      ∃ fields v, resp = some (.obj fields) ∧ jsonGet fields "data" = some v ∧
        v.truthy = true ∧ ¬ quantity ≤ 0 ∧
        FakerApiClient.get_credit_cards quantity resp = v := by
  by_cases hq : quantity ≤ 0
  · left
    simp [FakerApiClient.get_credit_cards, hq]
  · cases resp with
    | none => left; simp [FakerApiClient.get_credit_cards, hq]
    | some body =>
      cases body with
      | obj fields =>
        cases hv : jsonGet fields "data" with
        | none => left; simp [FakerApiClient.get_credit_cards, hq, hv]
        | some v =>
          by_cases ht : v.truthy = true
          · right
            exact ⟨fields, v, rfl, hv, ht, hq,
              by simp [FakerApiClient.get_credit_cards, hq, hv, ht]⟩
          · left
            have ht2 : v.truthy = false := by simpa using ht
            simp [FakerApiClient.get_credit_cards, hq, hv, ht2]
      | null => left; simp [FakerApiClient.get_credit_cards, hq]
      | bool b => left; simp [FakerApiClient.get_credit_cards, hq]
      | num n => left; simp [FakerApiClient.get_credit_cards, hq]
      | str s => left; simp [FakerApiClient.get_credit_cards, hq]
      | arr elems => left; simp [FakerApiClient.get_credit_cards, hq]

/-- C7 counterexample: an address record with `street` absent makes
`create_address` fail with `KeyError("street")` — a dict-lookup KeyError,
not a ValidationError (no ValidationError exists anywhere in the code). -/
theorem C7_missing_field_counterexample :
    UsersRepository.create_address exStore exIncompleteAddress =
        .error (.keyError "street") ∧
      PyError.keyError "street" ≠ PyError.validationError := ⟨rfl, by decide⟩

/-- C7 (amended): for every input record missing one of the required address
fields (street, suite, city, zipcode, or the nested geo lat/lng),
`create_address` fails with a `KeyError` naming a missing key, and stages no
Address. -/
theorem C7_amended_missing_field_keyerror (store : EntityStore) (data : AddressData)
    (h : data.complete = false) :
    ∃ key, UsersRepository.create_address store data = .error (.keyError key) := by
  obtain ⟨ost, osu, oci, ozi, og⟩ := data
  cases ost with
  | none => exact ⟨"street", rfl⟩
  | some st =>
    cases osu with
    | none => exact ⟨"suite", rfl⟩
    | some su =>
      cases oci with
      | none => exact ⟨"city", rfl⟩
      | some ci =>
        cases ozi with
        | none => exact ⟨"zipcode", rfl⟩
        | some zi =>
          cases og with
          | none => exact ⟨"geo", rfl⟩
          | some g =>
            obtain ⟨ola, oln⟩ := g
            cases ola with
            | none => exact ⟨"lat", rfl⟩
            | some la =>
              cases oln with
              | none => exact ⟨"lng", rfl⟩
              | some ln => simp [AddressData.complete, GeoData.complete] at h

/-- C7 (amended) witness: the record missing `street` is rejected, nothing
is staged. -/
theorem C7_amended_missing_field_keyerror_witness :
    exIncompleteAddress.complete = false ∧
      (UsersRepository.create_address exStore exIncompleteAddress).isOk = false := by
  refine ⟨by decide, ?_⟩
  obtain ⟨key, hk⟩ :=
    C7_amended_missing_field_keyerror exStore exIncompleteAddress (by decide)
  rw [hk]
  rfl

/-- C8 counterexample: the body `\x7b"data": 7\x7d` is not an envelope with a
non-empty `data` array, yet `get_credit_cards` returns the raw value 7 — the
malformed payload — rather than an empty sequence. -/
theorem C8_malformed_envelope_counterexample :
    FakerApiClient.get_credit_cards 1 exLeakResp = .num 7 ∧
      Json.num 7 ≠ Json.arr [] := ⟨rfl, fun h => Json.noConfusion h⟩

/-- The response shapes the embedded client maps to the empty sequence:
network/HTTP failures, non-object bodies, and objects whose `data` entry is
absent or falsy. -/
def failureShape (resp : Option Json) : Prop :=
  match resp with
  | some (.obj fields) => ∀ v, jsonGet fields "data" = some v → v.truthy = false
  | _ => True

/-- C8 (amended): for every network/HTTP failure, every non-object body, and
every object whose `data` entry is absent or falsy, `get_credit_cards`
returns the empty sequence; an object carrying a truthy non-array `data`
value, however, is returned verbatim, so the guarantee does not extend to
every malformed envelope. -/
theorem C8_amended_failure_shapes_empty (quantity : Int) (resp : Option Json)
    (h : failureShape resp) :
    FakerApiClient.get_credit_cards quantity resp = .arr [] := by
  by_cases hq : quantity ≤ 0
  · simp [FakerApiClient.get_credit_cards, hq]
  · cases resp with
    | none => simp [FakerApiClient.get_credit_cards, hq]
    | some body =>
      cases body with
      | obj fields =>
        simp only [failureShape] at h
        cases hv : jsonGet fields "data" with
        | none => simp [FakerApiClient.get_credit_cards, hq, hv]
        | some v => simp [FakerApiClient.get_credit_cards, hq, hv, h v hv]
      | null => simp [FakerApiClient.get_credit_cards, hq]
      | bool b => simp [FakerApiClient.get_credit_cards, hq]
      | num n => simp [FakerApiClient.get_credit_cards, hq]
      | str s => simp [FakerApiClient.get_credit_cards, hq]
      | arr elems => simp [FakerApiClient.get_credit_cards, hq]

/-- C8 (amended) witness: a network failure yields the empty sequence. -/
theorem C8_amended_failure_shapes_empty_witness :
    FakerApiClient.get_credit_cards 5 none = .arr [] :=
  C8_amended_failure_shapes_empty 5 none trivial

/-- C9: `create_user` mutates its `user_data` argument in place — after the
call the callers record has its `address`, `company` and `credit_card`
entries removed (set to absent), while its `id`, `name`, `username`,
`email`, `phone` and `website` entries are left unchanged. -/
theorem C9_create_user_pops_nested_in_place (store : EntityStore) (d : UserRecord)
    (address_id company_id credit_card_id : Option Nat) :
    (UsersRepository.create_user store d address_id company_id
          credit_card_id).2.1.address = none ∧
      (UsersRepository.create_user store d address_id company_id
          credit_card_id).2.1.company = none ∧
      (UsersRepository.create_user store d address_id company_id
          credit_card_id).2.1.credit_card = none ∧
      (UsersRepository.create_user store d address_id company_id
          credit_card_id).2.1.id = d.id ∧
      (UsersRepository.create_user store d address_id company_id
          credit_card_id).2.1.name = d.name ∧
      (UsersRepository.create_user store d address_id company_id
          credit_card_id).2.1.username = d.username ∧
      (UsersRepository.create_user store d address_id company_id
          credit_card_id).2.1.email = d.email ∧
      (UsersRepository.create_user store d address_id company_id
          credit_card_id).2.1.phone = d.phone ∧
      (UsersRepository.create_user store d address_id company_id
          credit_card_id).2.1.website = d.website :=
  ⟨rfl, rfl, rfl, rfl, rfl, rfl, rfl, rfl, rfl⟩

end SynergyWay
